import Mathlib

/-!
A shallow embedding of the psychosocial-care record service ("atendimentos"):
the pure validation/sanitization functions and the CRUD operations of
`AtendimentoModel` over the single `atendimento` table, and the HTTP-facing
`AtendimentoController` that wraps them, together with proofs of the
behavioural properties claimed for them.

JavaScript dynamic values are embedded as `JSValue`, so that runtime type
errors (such as calling `.trim()` on a number) are representable: every
fallible function returns `Except JsError _`.  The database is embedded as an
explicit table state threaded through the persistence operations; every SQL
statement issued is recorded in a log so that "no query was issued" is a
provable statement.
-/

namespace Atendimento

/-- A JavaScript runtime value, as far as the backend manipulates one. -/
inductive JSValue where
  | undef
  | null
  | str (s : String)
  | num (n : Int)
  | bool (b : Bool)
deriving DecidableEq, Repr

/-- JavaScript truthiness of a value. -/
def truthy : JSValue → Bool
  | .undef => false
  | .null => false
  | .str s => s != ""
  | .num n => n != 0
  | .bool b => b

/-- Character-list core of JavaScript String.prototype.trim: whitespace
stripped from both ends. -/
def trimCharList (l : List Char) : List Char :=
  ((l.dropWhile Char.isWhitespace).reverse.dropWhile Char.isWhitespace).reverse

/-- JavaScript String.prototype.trim on a string value. -/
def jsTrim (s : String) : String :=
  ⟨trimCharList s.data⟩

/-- Exceptions thrown by the embedded code. -/
inductive JsError where
  | typeError
  | validationError (message : String)
  | storageError
deriving DecidableEq, Repr

/-- The method call `v.trim()`: only strings have the method, any other
receiver throws a TypeError. -/
def jsCallTrim : JSValue → Except JsError String
  | .str s => .ok (jsTrim s)
  | _ => .error .typeError

/-- A request body or sanitized record as a JS object.  `extra` models any
further own properties of the object; the code only reads the five named
fields, and a sanitized object carries none. -/
structure Input where
  nome : JSValue := .undef
  profissional : JSValue := .undef
  data : JSValue := .undef
  tipo : JSValue := .undef
  observacoes : JSValue := .undef
  extra : List (String × JSValue) := []
deriving DecidableEq, Repr

/-- Result shape of validation. -/
structure ValidationResult where
  isValid : Bool
  errors : List String
deriving DecidableEq, Repr

namespace AtendimentoModel

/-- The `tiposValidos` array. -/
def tiposValidos : List String := ["Psicológico", "Pedagógico", "Assistência Social"]

/-- `Array.prototype.includes` over a string array with a dynamic argument:
strict equality only ever matches a string value. -/
def jsIncludes (l : List String) (v : JSValue) : Bool :=
  match v with
  | .str s => l.contains s
  | _ => false

/-- The test `!field || field.trim().length === 0` used for `nome` and
`profissional`: `true` means the rule is violated; a truthy non-string
receiver makes `.trim()` throw. -/
def requiredTextViolated (v : JSValue) : Except JsError Bool :=
  if truthy v then do
    let t ← jsCallTrim v
    pure (t.length == 0)
  else
    pure true

/-- Embeds `AtendimentoModel.validateAtendimentoData`. -/
def validateAtendimentoData (d : Input) : Except JsError ValidationResult := do
  let nomeBad ← requiredTextViolated d.nome
  let profBad ← requiredTextViolated d.profissional
  let dataBad := !truthy d.data
  let tipoBad := !truthy d.tipo || !jsIncludes tiposValidos d.tipo
  let errors :=
    (if nomeBad then ["Nome é obrigatório"] else []) ++
    (if profBad then ["Profissional é obrigatório"] else []) ++
    (if dataBad then ["Data é obrigatória"] else []) ++
    (if tipoBad then ["Tipo deve ser: Psicológico, Pedagógico ou Assistência Social"] else [])
  pure { isValid := errors.length == 0, errors := errors }

/-- The ternary `field ? field.trim() : ''` used on each text field. -/
def sanitizeField (v : JSValue) : Except JsError String :=
  if truthy v then jsCallTrim v else pure ""

/-- Embeds `AtendimentoModel.sanitizeAtendimentoData`:
`field ? field.trim() : ''` for the three text fields, pass-through for
`data` and `tipo`, and an object literal with exactly the five keys. -/
def sanitizeAtendimentoData (d : Input) : Except JsError Input := do
  let nome ← sanitizeField d.nome
  let profissional ← sanitizeField d.profissional
  let observacoes ← sanitizeField d.observacoes
  pure { nome := .str nome, profissional := .str profissional,
         data := d.data, tipo := d.tipo, observacoes := .str observacoes, extra := [] }

/-- A stored row of the `atendimento` table.  DATE values are embedded as
their ISO `yyyy-mm-dd` strings, whose lexicographic order agrees with date
order. -/
structure Row where
  id : Nat
  nome : String
  profissional : String
  data : String
  tipo : String
  observacoes : String
deriving DecidableEq, Repr

/-- One SQL statement issued through the connection pool, recorded so that
"this call issued no query" is provable. -/
inductive Query where
  | selectAll
  | selectById (id : Int)
  | insertRow
  | updateRow (id : Int)
  | deleteRow (id : Int)
deriving DecidableEq, Repr

/-- The id an issued statement was keyed on, when any. -/
def Query.keyId : Query → Option Int
  | .selectAll => none
  | .selectById i => some i
  | .insertRow => none
  | .updateRow i => some i
  | .deleteRow i => some i

/-- State of the `atendimento` table: rows, the SERIAL counter, and the log
of executed statements. -/
structure Table where
  rows : List Row
  nextId : Nat
  log : List Query
deriving DecidableEq, Repr

/-- A freshly initialized table. -/
def emptyTable : Table := ⟨[], 1, []⟩

/-- The WHERE clause `id = $1` against the integer bound parameter. -/
def rowMatches (i : Int) (r : Row) : Bool := (r.id : Int) == i

/-- The comparison realizing `ORDER BY data DESC, id DESC`. -/
def rowLe (a b : Row) : Bool :=
  decide (b.data < a.data ∨ (b.data = a.data ∧ b.id ≤ a.id))

/-- Embeds `AtendimentoModel.findAll`: SELECT of all rows ordered by
`data DESC, id DESC`. -/
def findAll (t : Table) : List Row × Table :=
  (t.rows.mergeSort rowLe, { t with log := t.log ++ [.selectAll] })

/-- Embeds `AtendimentoModel.findById`: SELECT by id, `rows[0] || null`. -/
def findById (i : Int) (t : Table) : Option Row × Table :=
  (t.rows.find? (rowMatches i), { t with log := t.log ++ [.selectById i] })

/-- Embeds `AtendimentoModel.create`: sanitize, validate, throw an Error with
the joined messages when invalid (before any query), otherwise
`INSERT .. RETURNING *`.  A non-string date bind value is rejected by the
driver, surfaced here as `storageError`; validation already guarantees that
`tipo` is a string, and sanitization that the three text fields are. -/
def create (atendimentoData : Input) (t : Table) : Except JsError Row × Table :=
  match sanitizeAtendimentoData atendimentoData with
  | .error e => (.error e, t)
  | .ok s =>
    match validateAtendimentoData s with
    | .error e => (.error e, t)
    | .ok v =>
      if v.isValid then
        match s.nome, s.profissional, s.data, s.tipo, s.observacoes with
        | .str n, .str p, .str d, .str tp, .str o =>
          let row : Row := ⟨t.nextId, n, p, d, tp, o⟩
          (.ok row, { rows := t.rows ++ [row], nextId := t.nextId + 1,
                      log := t.log ++ [.insertRow] })
        | _, _, _, _, _ => (.error .storageError, t)
      else
        (.error (.validationError
          ("Validation failed: " ++ String.intercalate ", " v.errors)), t)

/-- Embeds `AtendimentoModel.update`: sanitize, validate, throw when invalid
(before any query), otherwise `UPDATE .. WHERE id = $6 RETURNING *` with
`rows[0] || null`. -/
def update (i : Int) (atendimentoData : Input) (t : Table) :
    Except JsError (Option Row) × Table :=
  match sanitizeAtendimentoData atendimentoData with
  | .error e => (.error e, t)
  | .ok s =>
    match validateAtendimentoData s with
    | .error e => (.error e, t)
    | .ok v =>
      if v.isValid then
        match s.nome, s.profissional, s.data, s.tipo, s.observacoes with
        | .str n, .str p, .str d, .str tp, .str o =>
          let newRow : Row → Row := fun r =>
            { r with nome := n, profissional := p, data := d, tipo := tp, observacoes := o }
          (.ok ((t.rows.find? (rowMatches i)).map newRow),
           { rows := t.rows.map (fun r => if rowMatches i r then newRow r else r),
             nextId := t.nextId, log := t.log ++ [.updateRow i] })
        | _, _, _, _, _ => (.error .storageError, t)
      else
        (.error (.validationError
          ("Validation failed: " ++ String.intercalate ", " v.errors)), t)

/-- Embeds `AtendimentoModel.delete`:
`DELETE FROM atendimento WHERE id = $1 RETURNING *` with `rows[0] || null`. -/
def delete (i : Int) (t : Table) : Option Row × Table :=
  (t.rows.find? (rowMatches i),
   { rows := t.rows.filter (fun r => !rowMatches i r), nextId := t.nextId,
     log := t.log ++ [.deleteRow i] })

end AtendimentoModel

namespace AtendimentoController

open AtendimentoModel

/-- The `data` field of the response envelope. -/
inductive RespData where
  | nullData
  | one (r : Row)
  | many (rs : List Row)
  | idOnly (id : Nat)
deriving DecidableEq, Repr

/-- The uniform response envelope built by `formatResponse`.  The wall-clock
`timestamp` field carries no information about the data flow and is not
modelled. -/
structure ApiResponse where
  success : Bool
  data : RespData
  message : String
  errors : List String
deriving DecidableEq, Repr

/-- Embeds `AtendimentoController.formatResponse` (minus the timestamp). -/
def formatResponse (success : Bool) (data : RespData) (message : String)
    (errors : List String) : ApiResponse :=
  ⟨success, data, message, errors⟩

/-- Models `new Date(dateString).toLocaleDateString('pt-BR')` applied to the
stored ISO date: empty input yields the empty string, and `yyyy-mm-dd`
renders as `dd/mm/yyyy`. -/
def formatDateForDisplay (dateString : String) : String :=
  if dateString == "" then ""
  else
    match dateString.splitOn "-" with
    | [y, m, d] => d ++ "/" ++ m ++ "/" ++ y
    | _ => dateString

/-- Embeds `AtendimentoController.formatAtendimentoResponse` on a row. -/
def formatAtendimentoResponse (r : Row) : Row :=
  { r with data := formatDateForDisplay r.data }

/-- What a controller method produces: an HTTP status, the response body, and
the table state after the call. -/
structure ControllerResult where
  status : Nat
  body : ApiResponse
  table : Table
deriving DecidableEq, Repr

/-- Value of a digit character under a radix, as parseInt reads one. -/
def digitVal (radix : Nat) (c : Char) : Option Nat :=
  let n := c.toNat
  let v : Option Nat :=
    if 48 ≤ n ∧ n ≤ 57 then some (n - 48)
    else if 65 ≤ n ∧ n ≤ 90 then some (n - 55)
    else if 97 ≤ n ∧ n ≤ 122 then some (n - 87)
    else none
  match v with
  | some d => if d < radix then some d else none
  | none => none

/-- Longest digit prefix under a radix; `none` when no digit was consumed
(parseInt's NaN). -/
def parseDigitRun (radix : Nat) (acc : Nat) (seen : Bool) : List Char → Option Nat
  | [] => if seen then some acc else none
  | c :: cs =>
    match digitVal radix c with
    | some d => parseDigitRun radix (acc * radix + d) true cs
    | none => if seen then some acc else none

/-- Models the JS global `parseInt` with no radix argument: leading whitespace
skipped, optional sign, `0x`/`0X` selects base 16, then the longest digit
prefix; `none` stands for NaN. -/
def jsParseInt (s : String) : Option Int :=
  let l := s.data.dropWhile Char.isWhitespace
  let signed : Int × List Char :=
    match l with
    | '-' :: rest => (-1, rest)
    | '+' :: rest => (1, rest)
    | _ => (1, l)
  let based : Nat × List Char :=
    match signed.2 with
    | '0' :: 'x' :: rest => (16, rest)
    | '0' :: 'X' :: rest => (16, rest)
    | _ => (10, signed.2)
  (parseDigitRun based.1 0 false based.2).map (fun n => signed.1 * n)

/-- The shared controller guard `!id || isNaN(parseInt(id))` on the raw
`req.params.id` (absent when the route carried none). -/
def badIdParam (idParam : Option String) : Bool :=
  match idParam with
  | none => true
  | some s => s == "" || (jsParseInt s).isNone

/-- The integer the controller passes to the model, `parseInt(id)`. -/
def parsedId (idParam : Option String) : Int :=
  match idParam with
  | some s => (jsParseInt s).getD 0
  | none => 0

/-- The HTTP 400 response for a missing or non-numeric id parameter. -/
def invalidIdResponse (t : Table) : ControllerResult :=
  ⟨400, formatResponse false .nullData "Invalid ID parameter" ["ID must be a valid number"], t⟩

/-- The `error.message` string of a thrown error; fixed stand-ins for the
runtime-generated TypeError and driver messages, which never contain the text
`Validation failed`. -/
def errMessage : JsError → String
  | .validationError m => m
  | .typeError => "TypeError"
  | .storageError => "StorageError"

/-- The check `error.message.includes('Validation failed')`: validation
errors are the only modelled errors whose message carries that prefix. -/
def isValidationFailure : JsError → Bool
  | .validationError _ => true
  | _ => false

/-- Embeds `AtendimentoController.getAllAtendimentos`. -/
def getAllAtendimentos (t : Table) : ControllerResult :=
  match findAll t with
  | (rs, t2) =>
    ⟨200, formatResponse true (.many (rs.map formatAtendimentoResponse))
      "Atendimentos retrieved successfully" [], t2⟩

/-- Embeds `AtendimentoController.getAtendimentoById`. -/
def getAtendimentoById (idParam : Option String) (t : Table) : ControllerResult :=
  if badIdParam idParam then invalidIdResponse t
  else
    match findById (parsedId idParam) t with
    | (none, t2) => ⟨404, formatResponse false .nullData "Atendimento not found" [], t2⟩
    | (some r, t2) =>
      ⟨200, formatResponse true (.one (formatAtendimentoResponse r))
        "Atendimento retrieved successfully" [], t2⟩

/-- Embeds `AtendimentoController.createAtendimento`. -/
def createAtendimento (body : Input) (t : Table) : ControllerResult :=
  match create body t with
  | (.ok r, t2) =>
    ⟨201, formatResponse true (.one (formatAtendimentoResponse r))
      "Atendimento created successfully" [], t2⟩
  | (.error e, t2) =>
    if isValidationFailure e then
      ⟨400, formatResponse false .nullData "Validation error" [errMessage e], t2⟩
    else
      ⟨500, formatResponse false .nullData "Error creating atendimento" [errMessage e], t2⟩

/-- Embeds `AtendimentoController.updateAtendimento`. -/
def updateAtendimento (idParam : Option String) (body : Input) (t : Table) :
    ControllerResult :=
  if badIdParam idParam then invalidIdResponse t
  else
    match update (parsedId idParam) body t with
    | (.ok none, t2) => ⟨404, formatResponse false .nullData "Atendimento not found" [], t2⟩
    | (.ok (some r), t2) =>
      ⟨200, formatResponse true (.one (formatAtendimentoResponse r))
        "Atendimento updated successfully" [], t2⟩
    | (.error e, t2) =>
      if isValidationFailure e then
        ⟨400, formatResponse false .nullData "Validation error" [errMessage e], t2⟩
      else
        ⟨500, formatResponse false .nullData "Error updating atendimento" [errMessage e], t2⟩

/-- Embeds `AtendimentoController.deleteAtendimento`: on success the envelope
data is the object literal `{ id: deletedAtendimento.id }`. -/
def deleteAtendimento (idParam : Option String) (t : Table) : ControllerResult :=
  if badIdParam idParam then invalidIdResponse t
  else
    match delete (parsedId idParam) t with
    | (none, t2) => ⟨404, formatResponse false .nullData "Atendimento not found" [], t2⟩
    | (some r, t2) =>
      ⟨200, formatResponse true (.idOnly r.id) "Atendimento deleted successfully" [], t2⟩

end AtendimentoController


open AtendimentoModel AtendimentoController

/-- Claim-side predicate: the field is missing (JS-falsy) or blank after
trim. -/
def missingOrBlank (v : JSValue) : Bool :=
  if truthy v then
    match v with
    | .str s => (jsTrim s).length == 0
    | _ => false
  else true

/-- Claim-side predicate: `tipo` lies outside the fixed three-value set (a
missing or non-string `tipo` is outside it). -/
def tipoInvalid (v : JSValue) : Bool := !jsIncludes tiposValidos v

/-- A field value that is either a string or falsy; on such receivers the
text-field code never reaches `.trim()` on a non-string. -/
def strOrFalsy (v : JSValue) : Bool :=
  match v with
  | .str _ => true
  | _ => !truthy v

/-- Table well-formedness: every stored id is below the SERIAL counter, so a
generated id is fresh.  Holds for every table reachable from `emptyTable`. -/
def TableWF (t : Table) : Prop := ∀ r ∈ t.rows, r.id < t.nextId

/-- A valid January record submission. -/
def exJan : Input :=
  { nome := .str "Maria", profissional := .str "Dr. X",
    data := .str "2024-01-01", tipo := .str "Psicológico" }

/-- A valid June record submission. -/
def exJun : Input :=
  { nome := .str "Pedro", profissional := .str "Dr. X",
    data := .str "2024-06-01", tipo := .str "Pedagógico" }

/-- The row stored for `exJan` in an empty table. -/
def janRow : Row := ⟨1, "Maria", "Dr. X", "2024-01-01", "Psicológico", ""⟩

/-- The row stored for `exJun` right after `exJan`. -/
def junRow : Row := ⟨2, "Pedro", "Dr. X", "2024-06-01", "Pedagógico", ""⟩

/-- A submission violating the profissional, data and tipo rules. -/
def exInvalid : Input :=
  { nome := .str " Ana ", profissional := .str "  ", data := .undef, tipo := .str "Errado" }

/-- The validation outcome on `exInvalid`. -/
def exInvalidResult : ValidationResult :=
  ⟨false, ["Profissional é obrigatório", "Data é obrigatória",
           "Tipo deve ser: Psicológico, Pedagógico ou Assistência Social"]⟩

/-- A request body whose `nome` is the number 42: truthy, so the code calls
`(42).trim()`, which throws a TypeError. -/
def badInput : Input :=
  { nome := .num 42, profissional := .str "Dr. X",
    data := .str "2024-01-01", tipo := .str "Psicológico" }

/-!  ## Lemmas about validation -/

theorem requiredTextViolated_ok (v : JSValue) (b : Bool)
    (h : requiredTextViolated v = .ok b) : b = missingOrBlank v := by
  cases v <;>
    simp [requiredTextViolated, missingOrBlank, truthy, jsCallTrim, bind, Except.bind,
      pure, Except.pure] at h ⊢ <;>
    try exact h
  case str s =>
    by_cases hs : s = "" <;> simp [hs] at h ⊢
    · exact h
    · exact h.symm
  case num n =>
    by_cases hn : n = 0 <;> simp [hn] at h ⊢ <;> try exact h
  case bool b2 =>
    cases b2 <;> simp at h ⊢ <;> try exact h

theorem tipoBad_eq (v : JSValue) :
    (!truthy v || !jsIncludes tiposValidos v) = tipoInvalid v := by
  cases v <;> simp [truthy, jsIncludes, tipoInvalid]
  case str s =>
    by_cases hs : s = ""
    · subst hs; decide
    · simp [hs]

/-- Inversion of a normally-returning validation run: the error list is the
source-order concatenation of the per-rule messages, and `isValid` is its
emptiness test. -/
theorem validateAtendimentoData_ok (x : Input) (r : ValidationResult)
    (h : validateAtendimentoData x = .ok r) :
    r.errors =
      (if missingOrBlank x.nome then ["Nome é obrigatório"] else []) ++
      (if missingOrBlank x.profissional then ["Profissional é obrigatório"] else []) ++
      (if truthy x.data then [] else ["Data é obrigatória"]) ++
      (if tipoInvalid x.tipo then
        ["Tipo deve ser: Psicológico, Pedagógico ou Assistência Social"] else []) ∧
    r.isValid = (r.errors.length == 0) := by
  cases hn : requiredTextViolated x.nome with
  | error e => simp [validateAtendimentoData, hn, bind, Except.bind] at h
  | ok nb =>
    cases hp : requiredTextViolated x.profissional with
    | error e => simp [validateAtendimentoData, hn, hp, bind, Except.bind] at h
    | ok pb =>
      rw [requiredTextViolated_ok _ _ hn] at hn
      rw [requiredTextViolated_ok _ _ hp] at hp
      simp only [validateAtendimentoData, hn, hp, bind, Except.bind, pure, Except.pure,
        tipoBad_eq, Except.ok.injEq] at h
      subst h
      constructor
      · simp only [Bool.not_eq_true']
        rcases hmn : missingOrBlank x.nome <;> rcases hmp : missingOrBlank x.profissional <;>
          rcases hd : truthy x.data <;> rcases hti : tipoInvalid x.tipo <;> simp
      · rfl

/-- A normal validation run is valid exactly when no rule is violated. -/
theorem validate_isValid_iff (x : Input) (r : ValidationResult)
    (h : validateAtendimentoData x = .ok r) :
    r.isValid = true ↔
      (missingOrBlank x.nome = false ∧ missingOrBlank x.profissional = false ∧
       truthy x.data = true ∧ tipoInvalid x.tipo = false) := by
  obtain ⟨he, hi⟩ := validateAtendimentoData_ok x r h
  rw [hi, he]
  rcases hmn : missingOrBlank x.nome <;> rcases hmp : missingOrBlank x.profissional <;>
    rcases hd : truthy x.data <;> rcases hti : tipoInvalid x.tipo <;> simp

/-- C1: a normally-returning validation flags exactly the violated rules: one
fixed message per violated rule and nothing else, and `isValid` holds exactly
on inputs satisfying all rules — equivalently, when `errors` is empty.  A
field is "missing" when it is JS-falsy. -/
theorem claim1_validate_flags_violations (x : Input) (r : ValidationResult)
    (h : validateAtendimentoData x = .ok r) :
    (r.isValid = true ↔
      (missingOrBlank x.nome = false ∧ missingOrBlank x.profissional = false ∧
       truthy x.data = true ∧ tipoInvalid x.tipo = false)) ∧
    (r.isValid = true ↔ r.errors = []) ∧
    r.errors.count "Nome é obrigatório" = (if missingOrBlank x.nome then 1 else 0) ∧
    r.errors.count "Profissional é obrigatório"
      = (if missingOrBlank x.profissional then 1 else 0) ∧
    r.errors.count "Data é obrigatória" = (if truthy x.data then 0 else 1) ∧
    r.errors.count "Tipo deve ser: Psicológico, Pedagógico ou Assistência Social"
      = (if tipoInvalid x.tipo then 1 else 0) ∧
    r.errors.length =
      (if missingOrBlank x.nome then 1 else 0) +
      (if missingOrBlank x.profissional then 1 else 0) +
      (if truthy x.data then 0 else 1) + (if tipoInvalid x.tipo then 1 else 0) := by
  obtain ⟨he, hi⟩ := validateAtendimentoData_ok x r h
  refine ⟨validate_isValid_iff x r h, ?_⟩
  rw [hi, he]
  rcases hmn : missingOrBlank x.nome <;> rcases hmp : missingOrBlank x.profissional <;>
    rcases hd : truthy x.data <;> rcases hti : tipoInvalid x.tipo <;>
    simp [List.count_cons, List.count_nil]

/-- Witness for C1 at a concrete three-violation input. -/
theorem claim1_witness :
    validateAtendimentoData exInvalid = .ok exInvalidResult ∧
    exInvalidResult.errors.count "Profissional é obrigatório"
      = (if missingOrBlank exInvalid.profissional then 1 else 0) ∧
    exInvalidResult.errors.length =
      (if missingOrBlank exInvalid.nome then 1 else 0) +
      (if missingOrBlank exInvalid.profissional then 1 else 0) +
      (if truthy exInvalid.data then 0 else 1) +
      (if tipoInvalid exInvalid.tipo then 1 else 0) :=
  ⟨rfl, (claim1_validate_flags_violations exInvalid exInvalidResult rfl).2.2.2.1,
   (claim1_validate_flags_violations exInvalid exInvalidResult rfl).2.2.2.2.2.2⟩

/-!  ## Lemmas about trim and sanitization -/

theorem dropWhile_of_append (p : Char → Bool) (B t : List Char)
    (h : List.dropWhile p (B ++ t) = B ++ t) : List.dropWhile p B = B := by
  cases B with
  | nil => simp
  | cons b bs =>
    rw [List.cons_append, List.dropWhile_cons] at h
    by_cases hb : p b
    · exfalso
      rw [if_pos hb] at h
      have hle := (List.dropWhile_sublist (l := bs ++ t) p).length_le
      have h2 := congrArg List.length h
      rw [List.length_cons] at h2
      omega
    · simp [List.dropWhile_cons, hb]

theorem trimCharList_idem (l : List Char) :
    trimCharList (trimCharList l) = trimCharList l := by
  show List.rdropWhile Char.isWhitespace (List.dropWhile Char.isWhitespace (trimCharList l))
      = trimCharList l
  set A := l.dropWhile Char.isWhitespace with hA
  have hAdrop : A.dropWhile Char.isWhitespace = A := by
    rw [hA]; exact List.dropWhile_idempotent _ _
  have htl : trimCharList l = List.rdropWhile Char.isWhitespace A := rfl
  have hsplit : A = trimCharList l ++ (A.reverse.takeWhile Char.isWhitespace).reverse := by
    rw [htl, List.rdropWhile]
    rw [← List.reverse_append, List.takeWhile_append_dropWhile, List.reverse_reverse]
  have hBdrop : (trimCharList l).dropWhile Char.isWhitespace = trimCharList l := by
    apply dropWhile_of_append _ _ (A.reverse.takeWhile Char.isWhitespace).reverse
    rw [← hsplit, hAdrop]
  rw [hBdrop, htl]
  exact List.rdropWhile_idempotent _ _

/-- JS trim is idempotent. -/
theorem jsTrim_idem (s : String) : jsTrim (jsTrim s) = jsTrim s :=
  congrArg String.mk (trimCharList_idem s.data)

/-- A normally-returned sanitized text field is a trim fixed point. -/
theorem sanitizeField_fixpoint (v : JSValue) (n : String)
    (h : sanitizeField v = .ok n) : jsTrim n = n := by
  rw [sanitizeField] at h
  by_cases ht : truthy v
  · rw [if_pos ht] at h
    cases v <;> simp [jsCallTrim] at h
    rw [← h]
    exact jsTrim_idem _
  · rw [if_neg ht] at h
    simp [pure, Except.pure] at h
    rw [← h]
    rfl

/-- On a string field the sanitizer returns exactly the trim. -/
theorem sanitizeField_str (s' : String) (n : String)
    (h : sanitizeField (.str s') = .ok n) : n = jsTrim s' := by
  rw [sanitizeField] at h
  by_cases hs : s' = ""
  · subst hs
    simp [truthy, pure, Except.pure] at h
    rw [← h]; rfl
  · simp [truthy, hs, jsCallTrim] at h
    exact h.symm

/-- A trim fixed point sanitizes to itself. -/
theorem sanitizeField_of_fixpoint (n : String) (hn : jsTrim n = n) :
    sanitizeField (.str n) = .ok n := by
  rw [sanitizeField]
  by_cases h : n = ""
  · subst h; simp [truthy, pure, Except.pure]
  · simp [truthy, h, jsCallTrim, hn]

/-- Inversion of a normal sanitization run: the output is the object with the
five keys, string text fields that are trim fixed points, and pass-through
`data`/`tipo`. -/
theorem sanitizeAtendimentoData_ok (x y : Input)
    (h : sanitizeAtendimentoData x = .ok y) :
    ∃ n p o : String,
      y = { nome := .str n, profissional := .str p, data := x.data, tipo := x.tipo,
            observacoes := .str o, extra := [] } ∧
      jsTrim n = n ∧ jsTrim p = p ∧ jsTrim o = o ∧
      (∀ s, x.nome = .str s → n = jsTrim s) ∧
      (∀ s, x.profissional = .str s → p = jsTrim s) ∧
      (∀ s, x.observacoes = .str s → o = jsTrim s) := by
  cases hn : sanitizeField x.nome with
  | error e => simp [sanitizeAtendimentoData, hn, bind, Except.bind] at h
  | ok n =>
    cases hp : sanitizeField x.profissional with
    | error e => simp [sanitizeAtendimentoData, hn, hp, bind, Except.bind] at h
    | ok p =>
      cases ho : sanitizeField x.observacoes with
      | error e => simp [sanitizeAtendimentoData, hn, hp, ho, bind, Except.bind] at h
      | ok o =>
        simp only [sanitizeAtendimentoData, hn, hp, ho, bind, Except.bind, pure,
          Except.pure, Except.ok.injEq] at h
        refine ⟨n, p, o, h.symm, sanitizeField_fixpoint _ _ hn,
          sanitizeField_fixpoint _ _ hp, sanitizeField_fixpoint _ _ ho, ?_, ?_, ?_⟩
        · intro s hs; rw [hs] at hn; exact sanitizeField_str s n hn
        · intro s hs; rw [hs] at hp; exact sanitizeField_str s p hp
        · intro s hs; rw [hs] at ho; exact sanitizeField_str s o ho

/-- C7: sanitization is idempotent — a sanitized object sanitizes to itself —
and one application trims the three text fields while passing `data` and
`tipo` through unchanged. -/
theorem claim7_sanitize_idempotent (x y : Input)
    (h : sanitizeAtendimentoData x = .ok y) :
    sanitizeAtendimentoData y = .ok y ∧
    y.data = x.data ∧ y.tipo = x.tipo ∧
    (∀ s, x.nome = .str s → y.nome = .str (jsTrim s)) ∧
    (∀ s, x.profissional = .str s → y.profissional = .str (jsTrim s)) ∧
    (∀ s, x.observacoes = .str s → y.observacoes = .str (jsTrim s)) := by
  obtain ⟨n, p, o, hy, hfn, hfp, hfo, hsn, hsp, hso⟩ := sanitizeAtendimentoData_ok x y h
  subst hy
  refine ⟨?_, rfl, rfl, ?_, ?_, ?_⟩
  · simp [sanitizeAtendimentoData, sanitizeField_of_fixpoint n hfn,
      sanitizeField_of_fixpoint p hfp, sanitizeField_of_fixpoint o hfo,
      bind, Except.bind, pure, Except.pure]
  · intro s hs; rw [hsn s hs]
  · intro s hs; rw [hsp s hs]
  · intro s hs; rw [hso s hs]

/-- Witness for C7 on a concrete padded submission. -/
theorem claim7_witness :
    sanitizeAtendimentoData
        { nome := .str "  Ana ", profissional := .str "Dr. X", data := .str "2024-01-01",
          tipo := .str "Psicológico", observacoes := .undef, extra := [("id", .num 9)] }
      = .ok { nome := .str "Ana", profissional := .str "Dr. X", data := .str "2024-01-01",
              tipo := .str "Psicológico", observacoes := .str "", extra := [] } ∧
    sanitizeAtendimentoData
        { nome := .str "Ana", profissional := .str "Dr. X", data := .str "2024-01-01",
          tipo := .str "Psicológico", observacoes := .str "", extra := [] }
      = .ok { nome := .str "Ana", profissional := .str "Dr. X", data := .str "2024-01-01",
              tipo := .str "Psicológico", observacoes := .str "", extra := [] } :=
  ⟨rfl,
   (claim7_sanitize_idempotent
     { nome := .str "  Ana ", profissional := .str "Dr. X", data := .str "2024-01-01",
       tipo := .str "Psicológico", observacoes := .undef, extra := [("id", .num 9)] }
     { nome := .str "Ana", profissional := .str "Dr. X", data := .str "2024-01-01",
       tipo := .str "Psicológico", observacoes := .str "", extra := [] } rfl).1⟩

/-!  ## C5: totality fails on non-string truthy fields -/

/-- C5 counterexample: on a body whose `nome` is the number 42 both functions
throw a TypeError instead of returning normally. -/
theorem claim5_counterexample_trim_throws :
    validateAtendimentoData badInput = .error .typeError ∧
    sanitizeAtendimentoData badInput = .error .typeError :=
  ⟨rfl, rfl⟩

theorem requiredTextViolated_total (v : JSValue) (h : strOrFalsy v = true) :
    ∃ b, requiredTextViolated v = .ok b := by
  cases v with
  | str s =>
    refine ⟨if s = "" then true else ((jsTrim s).length == 0), ?_⟩
    by_cases hs : s = "" <;>
      simp [requiredTextViolated, truthy, hs, jsCallTrim, bind, Except.bind, pure, Except.pure]
  | num n =>
    simp [strOrFalsy, truthy] at h
    subst h
    exact ⟨true, rfl⟩
  | bool b =>
    simp [strOrFalsy, truthy] at h
    subst h
    exact ⟨true, rfl⟩
  | undef => exact ⟨true, rfl⟩
  | null => exact ⟨true, rfl⟩

theorem sanitizeField_total (v : JSValue) (h : strOrFalsy v = true) :
    ∃ b, sanitizeField v = .ok b := by
  cases v with
  | str s =>
    refine ⟨if s = "" then "" else jsTrim s, ?_⟩
    by_cases hs : s = "" <;>
      simp [sanitizeField, truthy, hs, jsCallTrim, pure, Except.pure]
  | num n =>
    simp [strOrFalsy, truthy] at h
    subst h
    exact ⟨"", rfl⟩
  | bool b =>
    simp [strOrFalsy, truthy] at h
    subst h
    exact ⟨"", rfl⟩
  | undef => exact ⟨"", rfl⟩
  | null => exact ⟨"", rfl⟩

/-- C5 (amended): on every input whose `nome`, `profissional` and
`observacoes` fields are each a string or a falsy value — in particular on
every well-typed request body — validation and sanitization return normally. -/
theorem claim5_total_on_stringlike_fields (x : Input)
    (hn : strOrFalsy x.nome = true) (hp : strOrFalsy x.profissional = true)
    (ho : strOrFalsy x.observacoes = true) :
    (∃ r, validateAtendimentoData x = .ok r) ∧
    (∃ y, sanitizeAtendimentoData x = .ok y) := by
  obtain ⟨nb, hnb⟩ := requiredTextViolated_total x.nome hn
  obtain ⟨pb, hpb⟩ := requiredTextViolated_total x.profissional hp
  obtain ⟨ns, hns⟩ := sanitizeField_total x.nome hn
  obtain ⟨ps, hps⟩ := sanitizeField_total x.profissional hp
  obtain ⟨os, hos⟩ := sanitizeField_total x.observacoes ho
  constructor
  · cases hres : validateAtendimentoData x with
    | error e =>
      exfalso
      simp [validateAtendimentoData, hnb, hpb, bind, Except.bind, pure, Except.pure] at hres
    | ok r => exact ⟨r, rfl⟩
  · cases hres : sanitizeAtendimentoData x with
    | error e =>
      exfalso
      simp [sanitizeAtendimentoData, hns, hps, hos, bind, Except.bind, pure, Except.pure] at hres
    | ok y => exact ⟨y, rfl⟩

/-- Witness for the amended C5 at a concrete body with falsy and string
fields mixed. -/
theorem claim5_witness :
    strOrFalsy (JSValue.str "Ana") = true ∧ strOrFalsy JSValue.null = true ∧
    strOrFalsy (JSValue.num 0) = true ∧
    ((∃ r, validateAtendimentoData
        { nome := .str "Ana", profissional := .null, data := .str "2024-01-01",
          tipo := .str "Psicológico", observacoes := .num 0, extra := [] } = .ok r) ∧
     (∃ y, sanitizeAtendimentoData
        { nome := .str "Ana", profissional := .null, data := .str "2024-01-01",
          tipo := .str "Psicológico", observacoes := .num 0, extra := [] } = .ok y)) :=
  ⟨rfl, rfl, rfl,
   claim5_total_on_stringlike_fields
     { nome := .str "Ana", profissional := .null, data := .str "2024-01-01",
       tipo := .str "Psicológico", observacoes := .num 0, extra := [] } rfl rfl rfl⟩

/-!  ## C3: findAll ordering -/

theorem rowLe_trans (a b c : Row) : rowLe a b → rowLe b c → rowLe a c := by
  simp only [rowLe, decide_eq_true_eq]
  rintro (h1 | ⟨h1, h1b⟩) (h2 | ⟨h2, h2b⟩)
  · exact Or.inl (lt_trans h2 h1)
  · exact Or.inl (h2 ▸ h1)
  · exact Or.inl (lt_of_lt_of_le h2 (le_of_eq h1))
  · exact Or.inr ⟨h2.trans h1, le_trans h2b h1b⟩

theorem rowLe_total (a b : Row) : rowLe a b || rowLe b a := by
  simp only [rowLe, Bool.or_eq_true, decide_eq_true_eq]
  rcases lt_trichotomy a.data b.data with h | h | h
  · exact Or.inr (Or.inl h)
  · rcases Nat.le_total b.id a.id with hid | hid
    · exact Or.inl (Or.inr ⟨h.symm, hid⟩)
    · exact Or.inr (Or.inr ⟨h, hid⟩)
  · exact Or.inl (Or.inl h)

theorem mergeSort_pair (le : Row → Row → Bool) (a b : Row) :
    List.mergeSort [a, b] le = if le a b then [a, b] else [b, a] := by
  rw [List.mergeSort]
  simp [List.splitInTwo, List.mergeSort, List.merge]

/-- C3: `findAll` returns a permutation of the stored rows that is sorted by
date descending, breaking ties by id descending; in particular after
inserting a 2024-01-01 record and then a 2024-06-01 record into a fresh
table, the June record comes first. -/
theorem claim3_findAll_sorted_desc :
    (∀ t : Table, (findAll t).1.Perm t.rows ∧
      (findAll t).1.Pairwise (fun a b => rowLe a b = true)) ∧
    (findAll ((create exJun (create exJan emptyTable).2).2)).1 = [junRow, janRow] := by
  constructor
  · intro t
    exact ⟨List.mergeSort_perm t.rows rowLe,
      List.sorted_mergeSort rowLe_trans rowLe_total t.rows⟩
  · have h2 : ((create exJun (create exJan emptyTable).2).2).rows = [janRow, junRow] := rfl
    show (((create exJun (create exJan emptyTable).2).2).rows).mergeSort rowLe
        = [junRow, janRow]
    rw [h2, mergeSort_pair]
    norm_num [rowLe, janRow, junRow]
    decide

/-!  ## C2: create and update sanitize, validate, and only then touch the table -/

theorem jsIncludes_str (l : List String) (v : JSValue) (h : jsIncludes l v = true) :
    ∃ s', v = .str s' := by
  cases v <;> simp [jsIncludes] at h
  exact ⟨_, rfl⟩

/-- C2: `create` and `update` sanitize then validate; when validation fails
they throw the error carrying the joined messages and leave the table —
including its statement log — untouched, so no query is issued; when
validation succeeds `create` appends exactly the sanitized row under the
generated id `nextId` and returns it. -/
theorem claim2_write_ops_validate_before_query (x s : Input) (v : ValidationResult)
    (t : Table) (i : Int) (d : String)
    (hs : sanitizeAtendimentoData x = .ok s)
    (hv : validateAtendimentoData s = .ok v)
    (hd : v.isValid = true → x.data = .str d) :
    (v.isValid = false →
      create x t =
        (.error (.validationError
          ("Validation failed: " ++ String.intercalate ", " v.errors)), t) ∧
      update i x t =
        (.error (.validationError
          ("Validation failed: " ++ String.intercalate ", " v.errors)), t)) ∧
    (v.isValid = true →
      ∃ row : Row,
        create x t = (.ok row,
          { rows := t.rows ++ [row], nextId := t.nextId + 1,
            log := t.log ++ [.insertRow] }) ∧
        row.id = t.nextId ∧ JSValue.str row.nome = s.nome ∧
        JSValue.str row.profissional = s.profissional ∧ row.data = d ∧
        JSValue.str row.tipo = s.tipo ∧ JSValue.str row.observacoes = s.observacoes) := by
  obtain ⟨n, p, o, hy, hfn, hfp, hfo, hsn, hsp, hso⟩ := sanitizeAtendimentoData_ok x s hs
  subst hy
  constructor
  · intro hinv
    constructor
    · simp [create, hs, hv, hinv]
    · simp [update, hs, hv, hinv]
  · intro hval
    have hxd := hd hval
    have hrules := (validate_isValid_iff _ v hv).mp hval
    have htipo : jsIncludes tiposValidos x.tipo = true := by
      have h4 := hrules.2.2.2
      simp only [tipoInvalid, Bool.not_eq_false'] at h4
      exact h4
    obtain ⟨tp, htp⟩ := jsIncludes_str _ _ htipo
    rw [hxd, htp] at hs hv
    refine ⟨⟨t.nextId, n, p, d, tp, o⟩, ?_, rfl, rfl, rfl, rfl, ?_, rfl⟩
    · simp [create, hs, hv, hval]
    · exact htp.symm

/-- Witness for C2: a concrete invalid body (bad `tipo`) and a concrete valid
body against a one-row table. -/
theorem claim2_witness :
    (sanitizeAtendimentoData exInvalid
      = .ok { nome := .str "Ana", profissional := .str "", data := .undef,
              tipo := .str "Errado", observacoes := .str "", extra := [] } ∧
     validateAtendimentoData
        { nome := .str "Ana", profissional := .str "", data := .undef,
          tipo := .str "Errado", observacoes := .str "", extra := [] }
      = .ok exInvalidResult) ∧
    (exInvalidResult.isValid = false →
      create exInvalid ⟨[janRow], 2, []⟩ =
        (.error (.validationError
          ("Validation failed: " ++ String.intercalate ", " exInvalidResult.errors)),
         ⟨[janRow], 2, []⟩) ∧
      update 1 exInvalid ⟨[janRow], 2, []⟩ =
        (.error (.validationError
          ("Validation failed: " ++ String.intercalate ", " exInvalidResult.errors)),
         ⟨[janRow], 2, []⟩)) :=
  ⟨⟨rfl, rfl⟩,
   (claim2_write_ops_validate_before_query exInvalid
     { nome := .str "Ana", profissional := .str "", data := .undef,
       tipo := .str "Errado", observacoes := .str "", extra := [] }
     exInvalidResult ⟨[janRow], 2, []⟩ 1 "" rfl rfl
     (fun hcontra => absurd hcontra (by decide))).1⟩

/-!  ## C6: create then findById round-trips -/

/-- Inversion of a successful `create`: the returned row carries the generated
id and is appended to the stored rows. -/
theorem create_ok_inv (x : Input) (t : Table) (row : Row) (t2 : Table)
    (h : create x t = (.ok row, t2)) :
    row.id = t.nextId ∧
    t2 = { rows := t.rows ++ [row], nextId := t.nextId + 1,
           log := t.log ++ [.insertRow] } := by
  cases hsx : sanitizeAtendimentoData x with
  | error e => simp [create, hsx] at h
  | ok s =>
    cases hvx : validateAtendimentoData s with
    | error e => simp [create, hsx, hvx] at h
    | ok v =>
      by_cases hval : v.isValid
      · obtain ⟨n, p, o, hy, -, -, -, -, -, -⟩ := sanitizeAtendimentoData_ok x s hsx
        subst hy
        cases hxd : x.data <;> cases hxt : x.tipo <;> rw [hxd, hxt] at hsx hvx <;>
          simp [create, hsx, hvx, hval] at h
        obtain ⟨rfl, rfl⟩ := h
        exact ⟨rfl, rfl⟩
      · simp [create, hsx, hvx, hval] at h

/-- C6: creating a record and then fetching it by the returned id yields the
very same stored record, equal on all fields. -/
theorem claim6_create_then_findById_roundtrip (x : Input) (t t2 : Table) (row : Row)
    (hwf : TableWF t) (hc : create x t = (.ok row, t2)) :
    (findById (row.id : Int) t2).1 = some row := by
  obtain ⟨hid, ht2⟩ := create_ok_inv x t row t2 hc
  subst ht2
  show (t.rows ++ [row]).find? (rowMatches (row.id : Int)) = some row
  rw [List.find?_append]
  have hnoneOld : t.rows.find? (rowMatches (row.id : Int)) = none := by
    rw [List.find?_eq_none]
    intro r hr
    have hlt := hwf r hr
    rw [← hid] at hlt
    simp only [rowMatches, beq_iff_eq, Nat.cast_inj]
    omega
  rw [hnoneOld]
  simp [rowMatches]

/-- Witness for C6: `exJan` created in the empty table is found again under
id 1. -/
theorem claim6_witness :
    (findById ((janRow.id : Nat) : Int) ⟨[janRow], 2, [.insertRow]⟩).1 = some janRow :=
  claim6_create_then_findById_roundtrip exJan emptyTable
    ⟨[janRow], 2, [.insertRow]⟩ janRow (fun r hr => by cases hr) rfl

/-!  ## C9: unexpected body properties are dropped -/

/-- C9: sanitization reads only the five named fields — its result is
independent of any extra properties (such as a client-supplied `id`) and
carries none — so `create` and `update` behave identically with or without
them, and a created row's id is always the generated `nextId`. -/
theorem claim9_sanitize_drops_extra_keys (x : Input) (t : Table) (i : Int) :
    sanitizeAtendimentoData x = sanitizeAtendimentoData { x with extra := [] } ∧
    (∀ y, sanitizeAtendimentoData x = .ok y → y.extra = []) ∧
    create x t = create { x with extra := [] } t ∧
    update i x t = update i { x with extra := [] } t ∧
    (∀ row t2, create x t = (.ok row, t2) → row.id = t.nextId) := by
  refine ⟨rfl, ?_, rfl, rfl, ?_⟩
  · intro y hy
    obtain ⟨n, p, o, hyy, -, -, -, -, -, -⟩ := sanitizeAtendimentoData_ok x y hy
    rw [hyy]
  · intro row t2 hc
    exact (create_ok_inv x t row t2 hc).1

/-- Witness for C9 at a body smuggling an `id` property. -/
theorem claim9_witness :
    sanitizeAtendimentoData { exJan with extra := [("id", .num 99)] }
      = sanitizeAtendimentoData { exJan with extra := [] } ∧
    create { exJan with extra := [("id", .num 99)] } emptyTable
      = create { exJan with extra := [] } emptyTable :=
  ⟨(claim9_sanitize_drops_extra_keys { exJan with extra := [("id", .num 99)] } emptyTable 0).1,
   (claim9_sanitize_drops_extra_keys
      { exJan with extra := [("id", .num 99)] } emptyTable 0).2.2.1⟩

/-!  ## C8 and C10: behaviour of delete and the delete response -/

/-- A parsable id parameter passes the controller guard. -/
theorem badIdParam_of_parse (sid : String) (i : Int) (hp : jsParseInt sid = some i) :
    badIdParam (some sid) = false := by
  by_cases hsid : sid = ""
  · subst hsid
    rw [show jsParseInt "" = none from rfl] at hp
    cases hp
  · simp [badIdParam, hsid, hp]

/-- C8: when no stored row has the requested id, `delete`, `findById` and
`update` (on a valid body) return the absent value rather than throwing, the
rows are unchanged, and the delete controller answers HTTP 404. -/
theorem claim8_absent_id_gives_none_and_404 (t : Table) (i : Int) (sid : String)
    (x s : Input) (v : ValidationResult) (d : String)
    (hnone : ∀ r ∈ t.rows, (r.id : Int) ≠ i)
    (hp : jsParseInt sid = some i)
    (hs : sanitizeAtendimentoData x = .ok s)
    (hv : validateAtendimentoData s = .ok v)
    (hval : v.isValid = true)
    (hd : x.data = .str d) :
    (delete i t).1 = none ∧ (delete i t).2.rows = t.rows ∧
    (findById i t).1 = none ∧
    (update i x t).1 = .ok none ∧ (update i x t).2.rows = t.rows ∧
    (deleteAtendimento (some sid) t).status = 404 ∧
    (deleteAtendimento (some sid) t).table.rows = t.rows := by
  have hfind : t.rows.find? (rowMatches i) = none := by
    rw [List.find?_eq_none]
    intro r hr
    simp only [rowMatches, beq_iff_eq]
    exact hnone r hr
  have hfilter : t.rows.filter (fun r => !rowMatches i r) = t.rows := by
    rw [List.filter_eq_self]
    intro r hr
    simp only [rowMatches, Bool.not_eq_eq_eq_not, Bool.not_true, beq_eq_false_iff_ne, ne_eq]
    exact hnone r hr
  obtain ⟨n, p, o, hy, -, -, -, -, -, -⟩ := sanitizeAtendimentoData_ok x s hs
  subst hy
  have hrules := (validate_isValid_iff _ v hv).mp hval
  have htipo : jsIncludes tiposValidos x.tipo = true := by
    have h4 := hrules.2.2.2
    simp only [tipoInvalid, Bool.not_eq_false'] at h4
    exact h4
  obtain ⟨tp, htp⟩ := jsIncludes_str _ _ htipo
  rw [hd, htp] at hs hv
  have hbad := badIdParam_of_parse sid i hp
  have hmap : t.rows.map
      (fun r => if rowMatches i r then
        { r with nome := n, profissional := p, data := d, tipo := tp, observacoes := o }
      else r) = t.rows := by
    refine (List.map_congr_left ?_).trans (List.map_id t.rows)
    intro r hr
    simp [rowMatches, beq_iff_eq, hnone r hr]
  refine ⟨?_, ?_, ?_, ?_, ?_, ?_, ?_⟩
  · simp [AtendimentoModel.delete, hfind]
  · simp [AtendimentoModel.delete, hfilter]
  · simp [findById, hfind]
  · simp [update, hs, hv, hval, hfind]
  · simp [update, hs, hv, hval, hmap]
  · simp [deleteAtendimento, hbad, parsedId, hp, AtendimentoModel.delete, hfind]
  · simp [deleteAtendimento, hbad, parsedId, hp, AtendimentoModel.delete, hfind, hfilter]

/-- Witness for C8: deleting, fetching and updating id 5 in the empty table. -/
theorem claim8_witness :
    (AtendimentoModel.delete 5 emptyTable).1 = none ∧
    (AtendimentoModel.delete 5 emptyTable).2.rows = emptyTable.rows ∧
    (findById 5 emptyTable).1 = none ∧
    (update 5 exJan emptyTable).1 = .ok none ∧
    (update 5 exJan emptyTable).2.rows = emptyTable.rows ∧
    (deleteAtendimento (some "5") emptyTable).status = 404 ∧
    (deleteAtendimento (some "5") emptyTable).table.rows = emptyTable.rows :=
  claim8_absent_id_gives_none_and_404 emptyTable 5 "5" exJan
    { nome := .str "Maria", profissional := .str "Dr. X", data := .str "2024-01-01",
      tipo := .str "Psicológico", observacoes := .str "", extra := [] }
    ⟨true, []⟩ "2024-01-01" (fun r hr => by cases hr) rfl rfl rfl rfl rfl

/-- C10: on a successful delete the controller responds 200 with only the
deleted record's id in the envelope data — not the full row the model
returned. -/
theorem claim10_delete_response_id_only (t : Table) (sid : String) (i : Int) (r : Row)
    (hp : jsParseInt sid = some i)
    (hfound : (AtendimentoModel.delete i t).1 = some r) :
    (deleteAtendimento (some sid) t).status = 200 ∧
    (deleteAtendimento (some sid) t).body.data = .idOnly r.id ∧
    (∀ fr, (deleteAtendimento (some sid) t).body.data ≠ .one fr) := by
  have hbad := badIdParam_of_parse sid i hp
  have hfr : t.rows.find? (rowMatches i) = some r := hfound
  simp [deleteAtendimento, hbad, parsedId, hp, AtendimentoModel.delete, hfr, formatResponse]

/-- Witness for C10: deleting id 1 from a one-row table. -/
theorem claim10_witness :
    (deleteAtendimento (some "1") ⟨[janRow], 2, []⟩).status = 200 ∧
    (deleteAtendimento (some "1") ⟨[janRow], 2, []⟩).body.data = .idOnly janRow.id :=
  ⟨(claim10_delete_response_id_only ⟨[janRow], 2, []⟩ "1" 1 janRow rfl rfl).1,
   (claim10_delete_response_id_only ⟨[janRow], 2, []⟩ "1" 1 janRow rfl rfl).2.1⟩

/-!  ## C4: the id parameter guard -/

/-- C4: a missing or unparsable id parameter makes the GET-by-id, PUT and
DELETE controllers answer HTTP 400 without touching the model — the table,
including its statement log, is unchanged; when the guard passes, every
statement the model issues is keyed on the integer parsed from the
parameter. -/
theorem claim4_id_param_guard (idParam : Option String) (t : Table) (body : Input) :
    (badIdParam idParam = true →
      (getAtendimentoById idParam t).status = 400 ∧
      (getAtendimentoById idParam t).table = t ∧
      (updateAtendimento idParam body t).status = 400 ∧
      (updateAtendimento idParam body t).table = t ∧
      (deleteAtendimento idParam t).status = 400 ∧
      (deleteAtendimento idParam t).table = t) ∧
    (badIdParam idParam = false →
      ∃ sid n, idParam = some sid ∧ jsParseInt sid = some n ∧
        (getAtendimentoById idParam t).table.log = t.log ++ [.selectById n] ∧
        (deleteAtendimento idParam t).table.log = t.log ++ [.deleteRow n] ∧
        ((updateAtendimento idParam body t).table.log = t.log ∨
         (updateAtendimento idParam body t).table.log = t.log ++ [.updateRow n])) := by
  constructor
  · intro hbad
    simp [getAtendimentoById, updateAtendimento, deleteAtendimento, hbad,
      invalidIdResponse, formatResponse]
  · intro hgood
    cases idParam with
    | none => simp [badIdParam] at hgood
    | some sid =>
      simp only [badIdParam, Bool.or_eq_false_iff] at hgood
      obtain ⟨-, hsome⟩ := hgood
      cases hpi : jsParseInt sid with
      | none => rw [hpi] at hsome; cases hsome
      | some n =>
        have hbad2 : badIdParam (some sid) = false := badIdParam_of_parse sid n hpi
        have hpid : parsedId (some sid) = n := by simp [parsedId, hpi]
        refine ⟨sid, n, rfl, hpi, ?_, ?_, ?_⟩
        · cases hf : t.rows.find? (rowMatches n) <;>
            simp [getAtendimentoById, hbad2, hpid, findById, hf]
        · cases hf : t.rows.find? (rowMatches n) <;>
            simp [deleteAtendimento, hbad2, hpid, AtendimentoModel.delete, hf]
        · cases hsx : sanitizeAtendimentoData body with
          | error e =>
            left
            cases e <;>
              simp [updateAtendimento, hbad2, hpid, update, hsx, isValidationFailure]
          | ok sb =>
            cases hvx : validateAtendimentoData sb with
            | error e =>
              left
              cases e <;>
                simp [updateAtendimento, hbad2, hpid, update, hsx, hvx, isValidationFailure]
            | ok v =>
              by_cases hval : v.isValid
              · obtain ⟨n2, p2, o2, hy, -, -, -, -, -, -⟩ :=
                  sanitizeAtendimentoData_ok body sb hsx
                subst hy
                cases hbd : body.data <;> cases hbt : body.tipo <;>
                  rw [hbd, hbt] at hsx hvx <;>
                  cases hfr : t.rows.find? (rowMatches n) <;>
                  simp [updateAtendimento, hbad2, hpid, update, hsx, hvx, hval, hfr,
                    isValidationFailure]
              · left
                simp [updateAtendimento, hbad2, hpid, update, hsx, hvx, hval,
                  isValidationFailure]

end Atendimento
